import Mathlib

/-!
Verification development for the representation/picking/geometry layer of the
MercifulCode/ngl repository (files `src/representation/representation.ts`,
`src/geometry/grid.ts`, `src/geometry/primitive.ts`, `src/utils/picker.ts`).
JavaScript values are embedded shallowly: numbers as rationals, objects as
tagged records with an explicit reference id (so that strict equality `===`
can be compared against structural `equals`-style comparisons), `undefined`
as an explicit constructor.  The asynchronous continuation structure of
`Representation.make` is embedded with an explicit fuel parameter: every
(mutually) recursive call consumes one unit, and each theorem is stated with
enough fuel for the code path it describes, mirroring the source call graph
call by call.
-/

namespace NGL

/-- A JavaScript value as used by the representation parameter engine.
Numbers are rationals (`NaN`/`Infinity` are not exercised by the code paths
modelled here); an object carries a reference id (strict equality `===`
compares ids), its numeric content (e.g. the components of a `Vector3` or
`Color`) and flags telling whether the object exposes `equals`, `copy` and
`set` methods, which is what `Representation.setParameters` probes for. -/
inductive PValue where
  | undefined : PValue
  | bool (b : Bool) : PValue
  | num (q : ℚ) : PValue
  | str (s : String) : PValue
  | obj (ref : Nat) (content : List ℚ) (hasEquals hasCopy hasSetter : Bool) : PValue
  deriving DecidableEq, Repr

/-- JavaScript truthiness of a value (`if (v)`).  The empty string and the
number 0 are falsy; every object (including an empty array) is truthy. -/
def PValue.truthy : PValue → Bool
  | .undefined => false
  | .bool b => b
  | .num q => if q = 0 then false else true
  | .str s => if s = "" then false else true
  | .obj _ _ _ _ _ => true

/-- JavaScript strict equality `===`: primitives by value, objects by
reference id. -/
def jsEq : PValue → PValue → Bool
  | .undefined, .undefined => true
  | .bool a, .bool b => a = b
  | .num a, .num b => a = b
  | .str a, .str b => a = b
  | .obj r _ _ _ _, .obj r2 _ _ _ _ => r = r2
  | _, _ => false

/-- Model of `String.prototype.toLowerCase()` restricted to ASCII (the
scheme names and color keywords the code compares are ASCII). -/
def jsToLower (s : String) : String := String.mk (s.data.map Char.toLower)

/-- The first character upper-cased and the rest kept:
`name[0].toUpperCase() + name.substr(1)` as `getShapeKey` computes it. -/
def jsCapitalize (s : String) : String :=
  match s.data with
  | [] => String.mk []
  | c :: rest => String.mk (c.toUpper :: rest)

/-- Whether the value is a JavaScript string (`typeof value === 'string'`). -/
def PValue.isStr : PValue → Bool
  | .str _ => true
  | _ => false

/-- Whether the value exposes an `equals` method (`p[name].equals` truthy). -/
def PValue.hasEqualsB : PValue → Bool
  | .obj _ _ he _ _ => he
  | _ => false

/-- Whether the value exposes a `copy` method. -/
def PValue.hasCopyB : PValue → Bool
  | .obj _ _ _ hc _ => hc
  | _ => false

/-- Whether the value exposes a `set` method. -/
def PValue.hasSetterB : PValue → Bool
  | .obj _ _ _ _ hs => hs
  | _ => false

/-- Result of calling `a.equals(b)` for three.js style objects: structural
comparison of the numeric content.  Comparing against a non-object yields
false (a `Vector3.equals` on a number reads undefined components). -/
def equalsB : PValue → PValue → Bool
  | .obj _ c _ _ _, .obj _ c2 _ _ _ => c = c2
  | _, _ => false

/-- Effect of `cur.copy(v)`: the receiving object keeps its identity and
method surface but takes over the numeric content of `v`.  Only the object
form of the argument is modelled (the sole form the modelled flows use). -/
def copyInto : PValue → PValue → PValue
  | .obj r _ he hc hs, .obj _ c2 _ _ _ => .obj r c2 he hc hs
  | cur, _ => cur

/-- Effect of `cur.set(v)` for the object-argument form (three.js `set`
accepts several input forms; only the object form is modelled, no claim
exercises the others). -/
def setInto : PValue → PValue → PValue
  | .obj r _ he hc hs, .obj _ c2 _ _ _ => .obj r c2 he hc hs
  | cur, _ => cur

/-- JavaScript truncation toward zero, as `parseInt` does on a number. -/
def jsTrunc (q : ℚ) : ℤ := if 0 ≤ q then ⌊q⌋ else -⌊-q⌋

/-- Model of `parseInt(v)` restricted to the inputs the engine can feed it:
faithful on numbers (truncation toward zero) and digit strings; `NaN`
results are collapsed to `undefined` (no modelled claim exercises them). -/
def jsParseInt : PValue → PValue
  | .num q => .num (jsTrunc q)
  | .str s => match s.toInt? with
    | some i => .num i
    | none => .undefined
  | _ => .undefined

/-- Model of `parseFloat(v)` under the same restriction as `jsParseInt`. -/
def jsParseFloat : PValue → PValue
  | .num q => .num q
  | .str s => match s.toInt? with
    | some i => .num i
    | none => .undefined
  | _ => .undefined

/-- Association-list update modelling `o[k] = v` on a JavaScript object:
an existing key keeps its position, a new key is appended (JS insertion
order; object keys are unique, so replacing the first occurrence is
replacing the key). -/
def alSet : List (String × PValue) → String → PValue → List (String × PValue)
  | [], k, v => [(k, v)]
  | kv :: rest, k, v => if kv.1 = k then (k, v) :: rest else kv :: alSet rest k v

/-- Reading `o[k]` on a JavaScript object: missing keys give `undefined`. -/
def alGet (l : List (String × PValue)) (k : String) : PValue :=
  (l.lookup k).getD .undefined

/-- Whether `o[k] !== undefined`. -/
def definedAt (l : List (String × PValue)) (k : String) : Bool :=
  match l.lookup k with
  | some v => v ≠ PValue.undefined
  | none => false

/-- `Object.assign(base, upd)`: every key of `upd` written onto `base` in
order. -/
def mergeParams (base upd : List (String × PValue)) : List (String × PValue) :=
  upd.foldl (fun acc kv => alSet acc kv.1 kv.2) base

/-- Insert an attribute name into a `what` set (`what[u] = true`): keys are
kept once, in first-marked order. -/
def insertWhat (w : List String) (u : String) : List String :=
  if u ∈ w then w else w ++ [u]

/-- `Object.assign(what, lazyProps.what)` on attribute-name sets. -/
def mergeWhat (base upd : List String) : List String :=
  upd.foldl insertWhat base

/-- A renderer-managed GPU buffer as the representation sees it (external
collaborator, §6 of the spec): it carries a visibility flag and a partial
parameter map; `setVisibility`/`setParameters` mutate those. -/
structure GpuBuffer where
  visible : Bool
  params : List (String × PValue)
  deriving DecidableEq, Repr

/-- Modelled from the spec: `Buffer.setParameters(partialParams)` (the
buffer class is outside src/) merges the supplied partial parameter map
into the buffer's parameters. -/
def GpuBuffer.setParams (b : GpuBuffer) (bp : List (String × PValue)) : GpuBuffer :=
  { b with params := mergeParams b.params bp }

/-- Modelled from the spec: `Buffer.setVisibility(bool)`. -/
def GpuBuffer.setVis (b : GpuBuffer) (v : Bool) : GpuBuffer :=
  { b with visible := v }

/-- Metadata object stored under a parameter name in `this.parameters`
(e.g. `{ type: 'boolean', rebuild: 'impostor', buffer: true }`), restricted
to the fields `setParameters` reads: `int`, `float`, `buffer`, `update`,
`rebuild`. -/
inductive BufferTag where
  | noBuf : BufferTag
  | btrue : BufferTag
  | bname (key : String) : BufferTag
  deriving DecidableEq, Repr

/-- The `rebuild` metadata field: absent, `true`, or the conditional
string marker for impostor-backed parameters. -/
inductive RebuildTag where
  | noRebuild : RebuildTag
  | rtrue : RebuildTag
  | impostor : RebuildTag
  deriving DecidableEq, Repr

structure PMeta where
  int : Bool
  float : Bool
  buffer : BufferTag
  update : Option String
  rebuild : RebuildTag
  deriving DecidableEq, Repr

/-- An entry of `this.parameters`: in this codebase the map holds plain
parameter values for most names (written by `init`) and metadata objects
for the four names `init` overwrites (`sphereDetail`, `radialSegments`,
`openEnded`, `disableImpostor`); subclasses may add more metadata entries.
Reading a metadata field (`tp[name].buffer` …) off a plain value yields
`undefined`, i.e. the default. -/
inductive PEntry where
  | val (v : PValue) : PEntry
  | meta (m : PMeta) : PEntry
  deriving DecidableEq, Repr

def PEntry.intB : PEntry → Bool
  | .val _ => false
  | .meta m => m.int

def PEntry.floatB : PEntry → Bool
  | .val _ => false
  | .meta m => m.float

def PEntry.bufferTag : PEntry → BufferTag
  | .val _ => .noBuf
  | .meta m => m.buffer

def PEntry.updateKey : PEntry → Option String
  | .val _ => none
  | .meta m => m.update

def PEntry.rebuildTag : PEntry → RebuildTag
  | .val _ => .noRebuild
  | .meta m => m.rebuild

/-- State of one `Representation` together with the narrow slices of its
collaborators that the modelled code paths touch.

* `queue` — modelled from the spec: the coalescing queue (`utils/queue.js`
  is not under src/); `push` appends a pending job, `length` is the number
  of pending jobs, `kill` cancels every queued not-yet-started job.
* `tasks` — modelled from the spec: the task counter (`utils/counter.js`
  is not under src/); `increment`/`decrement`/`change(delta)` are integer
  arithmetic, `dispose` is recorded in `tasksDisposed`.
* `pendingMake` — continuations captured by an in-flight `prepare` step
  (the job has left the queue; `dispose` does not cancel it).
* `renderRequests` — how many times `viewer.requestRender()` ran.
* `attachCount` — how many times the attach step of `make` ran.
* `params` — `this.parameters`; `vals` — the dynamic instance properties
  `this[name]` (`this.visible`, `this.opacity`, `this.disableImpostor`, …
  live here, all initially undefined/absent until assigned).
* `schemes` — the color-scheme registry keys (external global);
  `extensionFragDepth` — the `ExtensionFragDepth` capability global. -/
structure RepState where
  lazyBuild : Bool
  lazyBufferParams : List (String × PValue)
  lazyWhat : List String
  tasks : ℤ
  tasksDisposed : Bool
  queue : List (Option (List String))
  pendingMake : List (Option (List String))
  bufferList : List GpuBuffer
  disposed : Bool
  hasPrepare : Bool
  renderRequests : Nat
  attachCount : Nat
  params : List (String × PEntry)
  vals : List (String × PValue)
  schemes : List String
  extensionFragDepth : Bool
  deriving DecidableEq, Repr

/-- The dynamic instance property `this[k]` (undefined when never set). -/
def RepState.valAt (s : RepState) (k : String) : PValue :=
  (s.vals.lookup k).getD .undefined

/-- Truthiness of a dynamic instance property (`this.lazy`, `this.opacity`,
`this.disableImpostor` …). -/
def RepState.valTruthy (s : RepState) (k : String) : Bool :=
  (s.valAt k).truthy

/-- Truthiness of `this.visible`. -/
def RepState.visibleTruthy (s : RepState) : Bool :=
  s.valTruthy "visible"

/-- Truthiness of `this.parameters[k]` (a metadata object is truthy, a
missing entry is falsy undefined). -/
def RepState.paramTruthy (s : RepState) (k : String) : Bool :=
  match s.params.lookup k with
  | none => false
  | some (.val v) => v.truthy
  | some (.meta _) => true

/-- Assignment `this[k] = v`. -/
def RepState.setVal (s : RepState) (k : String) (v : PValue) : RepState :=
  { s with vals := alSet s.vals k v }

/-- `viewer.requestRender()` (external collaborator, modelled as a call
counter). -/
def requestRender (s : RepState) : RepState :=
  { s with renderRequests := s.renderRequests + 1 }

/-- `Representation.clear`: removes every owned buffer from the viewer,
disposes it, empties the owned-buffer list and requests a render (the
viewer and the disposed buffers hold no further modelled state). -/
def clear (s : RepState) : RepState :=
  requestRender { s with bufferList := [] }

/-- `Representation.create`: the base-class body is empty (buffers are
created by subclasses outside src/). -/
def createB (s : RepState) : RepState := s

/-- `Representation.dispose`: marks the terminal flag, kills every queued
job, disposes the task counter and clears the buffers. -/
def dispose (s : RepState) : RepState :=
  clear { s with disposed := true, queue := [], tasksDisposed := true }

mutual

/-- `Representation.build(updateWhat?)`.  If `lazy` and invisible or fully
transparent, records the request in `lazyProps.build` and returns.  Without
a `prepare` step, increments the task counter and calls `make()` (with no
argument).  Otherwise coalesces through the queue: a pending job is killed
and the counter corrected to one in-flight task before the new job is
pushed. -/
def buildF : Nat → Option (List String) → RepState → RepState
  | 0, _, s => s
  | n + 1, updateWhat, s =>
    if s.paramTruthy "lazy" && (!s.visibleTruthy || !s.paramTruthy "opacity") then
      { s with lazyBuild := true }
    else if !s.hasPrepare then
      makeF n none { s with tasks := s.tasks + 1 }
    else
      let s1 :=
        if 0 < s.queue.length then
          { s with tasks := s.tasks + (1 - (s.queue.length : ℤ)), queue := [] }
        else
          { s with tasks := s.tasks + 1 }
      { s1 with queue := s1.queue ++ [updateWhat] }

/-- `Representation.make(updateWhat?)`: with a `prepare` step the `_make`
continuation is deferred until the preparation resolves (recorded in
`pendingMake`); otherwise it runs immediately.  The in-repo callers pass no
callback. -/
def makeF : Nat → Option (List String) → RepState → RepState
  | 0, _, s => s
  | n + 1, updateWhat, s =>
    if s.hasPrepare then
      { s with pendingMake := s.pendingMake ++ [updateWhat] }
    else
      makeCoreF n updateWhat s

/-- The `_make` continuation inside `Representation.make`: the update path
refreshes attributes, requests a render and decrements the counter; the
full path clears and recreates the buffers and attaches them unless the
representation was disposed in the meantime. -/
def makeCoreF : Nat → Option (List String) → RepState → RepState
  | 0, _, s => s
  | n + 1, updateWhat, s =>
    match updateWhat with
    | some w =>
      let s1 := updateF n w s
      let s2 := requestRender s1
      { s2 with tasks := s2.tasks - 1 }
    | none =>
      let s1 := createB (clear s)
      if !s1.disposed then attachF n s1 else s1

/-- `Representation.attach(callback)`: sets the buffers' visibility via
`setVisibility(this.visible)` and then runs the callback, which decrements
the task counter. -/
def attachF : Nat → RepState → RepState
  | 0, s => s
  | n + 1, s =>
    let s1 := { s with attachCount := s.attachCount + 1 }
    let s2 := setVisibilityF n s1.visibleTruthy false s1
    { s2 with tasks := s2.tasks - 1 }

/-- `Representation.setVisibility(value, noRenderRequest)`.  On becoming
visible with truthy opacity: a deferred lazy build is triggered and the
method returns; otherwise deferred buffer-params/attribute updates are
flushed through `updateParameters`.  Then visibility is propagated to every
owned buffer and a render requested unless suppressed. -/
def setVisibilityF : Nat → Bool → Bool → RepState → RepState
  | 0, _, _, s => s
  | n + 1, value, noRenderRequest, s =>
    let s1 := s.setVal "visible" (.bool value)
    if s1.visibleTruthy && s1.paramTruthy "opacity" && s1.lazyBuild then
      buildF n none { s1 with lazyBuild := false }
    else
      let s2 :=
        if s1.visibleTruthy && s1.paramTruthy "opacity" &&
            (!s1.lazyBufferParams.isEmpty || !s1.lazyWhat.isEmpty) then
          updateParametersF n s1.lazyBufferParams s1.lazyWhat
            { s1 with lazyBufferParams := [], lazyWhat := [] }
        else s1
      let s3 := { s2 with bufferList := s2.bufferList.map (fun b => b.setVis value) }
      if noRenderRequest then s3 else requestRender s3

/-- `Representation.updateParameters(bufferParams, what)`: defers into
`lazyProps` when `this.lazy` is truthy, the representation is invisible or
`this.opacity` falsy, and the change is not itself an opacity change;
otherwise pushes the buffer params to every buffer, runs an attribute
update pass when any attribute was marked, and requests a render. -/
def updateParametersF : Nat → List (String × PValue) → List String → RepState → RepState
  | 0, _, _, s => s
  | n + 1, bufferParams, what, s =>
    if s.valTruthy "lazy" && (!s.visibleTruthy || !s.valTruthy "opacity") &&
        !(definedAt bufferParams "opacity") then
      { s with
        lazyBufferParams := mergeParams s.lazyBufferParams bufferParams,
        lazyWhat := mergeWhat s.lazyWhat what }
    else
      let s1 := { s with bufferList := s.bufferList.map (fun b => b.setParams bufferParams) }
      let s2 := if !what.isEmpty then updateF n what s1 else s1
      requestRender s2

/-- `Representation.update(what)`: the base class rebuilds via
`build(what)`. -/
def updateF : Nat → List String → RepState → RepState
  | 0, _, s => s
  | n + 1, w, s => buildF n (some w) s

end

/-- The queue worker resolving an in-flight `prepare` step: the stored
`_make` continuation runs against the current state (dispose may have
happened in between). -/
def resolvePrepareF : Nat → RepState → RepState
  | n, s =>
    match s.pendingMake with
    | [] => s
    | uw :: rest => makeCoreF n uw { s with pendingMake := rest }

/-- The three.js named-color table, restricted to the entries the modelled
flows exercise (external to this repository). -/
def namedColors : List (String × ℚ) := [("red", 16711680), ("green", 32768), ("blue", 255)]

/-- Rounded 0..255 channel of a 0..1 float, as `Color.getHex` computes it. -/
def channelByte (q : ℚ) : ℤ := round (255 * (max 0 (min 1 q)))

/-- Model of `new Color(value).getHex()`: a number round-trips (faithful for
integers in 0..0xffffff, the forms the engine passes), a string is resolved
through the named-color table (an unknown name leaves the default white
color), a color object recombines its rgb content.  Other inputs are not
exercised and collapse to the default. -/
def colorGetHex : PValue → ℚ
  | .num q => q
  | .str s => ((namedColors.lookup s).getD 16777215)
  | .obj _ (r :: g :: b :: _) _ _ _ =>
    ((channelByte r) * 65536 + (channelByte g) * 256 + channelByte b : ℤ)
  | _ => 16777215

/-- `Representation.setColor(value, p)` with a target object `p` (both
in-repo call sites, `init` and `setParameters`, pass one): a string naming
a registered scheme (compared lowercased) is stored as `p.colorScheme`
verbatim; any other defined value is resolved to a numeric hex color,
forcing `p.colorScheme = 'uniform'` and `p.colorValue`; `undefined` leaves
`p` untouched. -/
def setColorOnParams (schemes : List String) (value : PValue)
    (p : List (String × PValue)) : List (String × PValue) :=
  match value with
  | .str sv =>
    if schemes.contains (jsToLower sv) then
      alSet p "colorScheme" (.str sv)
    else
      alSet (alSet p "colorScheme" (.str "uniform")) "colorValue" (.num (colorGetHex (.str sv)))
  | .undefined => p
  | v =>
    alSet (alSet p "colorScheme" (.str "uniform")) "colorValue" (.num (colorGetHex v))

/-- Accumulator of the `setParameters` name loop: the evolving instance
values, the staged buffer-parameter diff, the staged attribute-update set
and the rebuild escalation flag. -/
structure LoopAcc where
  vals : List (String × PValue)
  bufferParams : List (String × PValue)
  what : List String
  rebuild : Bool
  deriving DecidableEq, Repr

/-- The value the slot `this[name]` holds after the commit step of the
`setParameters` loop: through `copy` when the current value is truthy and
both sides expose `copy`, through `set` when the current value is truthy
and exposes `set`, plain assignment otherwise. -/
def commitResult (cur v : PValue) : PValue :=
  if cur.truthy && cur.hasCopyB && v.hasCopyB then copyInto cur v
  else if cur.truthy && cur.hasSetterB then setInto cur v
  else v

/-- One iteration of the `setParameters` name loop: skips undefined values
and unrecognized names, coerces per metadata, skips when the new value is
strictly equal to the current one and the `equals` probe agrees, commits
through `copy`/`set`/assignment, stages buffer params, marks attribute
updates and escalates the rebuild flag (the `'impostor'` marker is
suppressed when `ExtensionFragDepth` holds and `this.disableImpostor` —
read after the commit, as the source checks it after the assignment — is
falsy). -/
def processParam (params : List (String × PEntry)) (extFragDepth : Bool)
    (acc : LoopAcc) (kv : String × PValue) : LoopAcc :=
  let name := kv.1
  let v0 := kv.2
  if v0 = .undefined then acc
  else
    match params.lookup name with
    | none => acc
    | some e =>
      let v1 := if e.intB then jsParseInt v0 else v0
      let v := if e.floatB then jsParseFloat v1 else v1
      let cur := (acc.vals.lookup name).getD .undefined
      if jsEq v cur && (!v.hasEqualsB || equalsB v cur) then acc
      else
        let vals1 := alSet acc.vals name (commitResult cur v)
        let bp1 :=
          match e.bufferTag with
          | .noBuf => acc.bufferParams
          | .btrue => alSet acc.bufferParams name v
          | .bname a => alSet acc.bufferParams a v
        let what1 :=
          match e.updateKey with
          | none => acc.what
          | some u => insertWhat acc.what u
        let rb1 :=
          acc.rebuild ||
            (match e.rebuildTag with
             | .noRebuild => false
             | .rtrue => true
             | .impostor =>
               !(extFragDepth && !(((vals1.lookup "disableImpostor").getD .undefined).truthy)))
        { vals := vals1, bufferParams := bp1, what := what1, rebuild := rb1 }

/-- `Representation.setParameters(params, what, rebuild)`: flushes lazily
deferred state when opacity transitions from falsy with an opacity value
supplied, normalizes `p.color` via `setColor` (mutating the params object,
whose new keys the loop then also visits), runs the name loop, and finally
either triggers a full `build()` or applies the accumulated diffs through
`updateParameters`. -/
def setParametersF (n : Nat) (p0 : List (String × PValue)) (what0 : List String)
    (rebuild0 : Bool) (s : RepState) : RepState :=
  let flush := !s.paramTruthy "opacity" && definedAt p0 "opacity"
  let bpInit := if flush && !s.lazyBuild then s.lazyBufferParams else []
  let whatInit := if flush && !s.lazyBuild then mergeWhat what0 s.lazyWhat else what0
  let rbInit := if flush && s.lazyBuild then true else rebuild0
  let s1 :=
    if flush then
      if s.lazyBuild then { s with lazyBuild := false }
      else { s with lazyBufferParams := [], lazyWhat := [] }
    else s
  let p := setColorOnParams s1.schemes (alGet p0 "color") p0
  let acc := p.foldl (processParam s1.params s1.extensionFragDepth)
    ⟨s1.vals, bpInit, whatInit, rbInit⟩
  let s2 := { s1 with vals := acc.vals }
  if acc.rebuild then buildF n none s2
  else updateParametersF n acc.bufferParams acc.what s2

/-! Grid (`src/geometry/grid.ts`). -/

/-- Dense 3D array with fixed element width.  `dataCtor` records the typed
array constructor the grid was built with (`Int32Array` by default). -/
structure Grid where
  length : Nat
  width : Nat
  height : Nat
  dataCtor : String
  elemSize : Nat
  data : List ℤ
  deriving DecidableEq, Repr

/-- The `Grid` constructor: allocates `length*width*height*elemSize`
zero-initialized cells. -/
def Grid.make (length width height : Nat) (dataCtor : String) (elemSize : Nat) : Grid :=
  ⟨length, width, height, dataCtor, elemSize,
    List.replicate (length * width * height * elemSize) 0⟩

/-- `TypedArray.prototype.set(src)` at offset 0: overwrites the leading
cells of `dest` with `src` (the `RangeError` case of a longer source is not
exercised: `clone` always passes equal-sized arrays). -/
def typedArraySet (dest src : List ℤ) : List ℤ :=
  if src.length ≤ dest.length then src ++ dest.drop src.length else dest

/-- `Grid.copy(grid)`: runs `this.data.set(grid.data)` and — the method body
has no return statement — evaluates to `undefined`.  The pair holds the
mutated receiver and the JavaScript return value (`none` = `undefined`). -/
def Grid.copyJS (self g : Grid) : Grid × Option Grid :=
  ({ self with data := typedArraySet self.data g.data }, none)

/-- `Grid.clone()`: `return new Grid(length, width, height, DataCtor,
elemSize).copy(this)` — the value returned is whatever `copy` returns. -/
def Grid.cloneJS (g : Grid) : Option Grid :=
  ((Grid.make g.length g.width g.height g.dataCtor g.elemSize).copyJS g).2

/-- The freshly constructed grid inside `clone`, after `copy` has mutated
it (the object `clone` builds but does not return). -/
def Grid.cloneTarget (g : Grid) : Grid :=
  ((Grid.make g.length g.width g.height g.dataCtor g.elemSize).copyJS g).1

/-! Geometry primitives (`src/geometry/primitive.ts`) and the shape-backed
pickers (`src/utils/picker.ts`). -/

/-- A value appearing in shape primitive data: plain numbers and strings,
plain arrays of numbers, objects exposing `toArray()`, `{x,y,z}` vectors
and `{r,g,b}` colors without one, and `undefined`. -/
inductive ShapeVal where
  | undefined : ShapeVal
  | num (q : ℚ) : ShapeVal
  | str (s : String) : ShapeVal
  | arr (xs : List ℚ) : ShapeVal
  | toArr (xs : List ℚ) : ShapeVal
  | vecObj (x y z : ℚ) : ShapeVal
  | colObj (r g b : ℚ) : ShapeVal
  deriving DecidableEq, Repr

/-- `addElement(elm, array)`: converts `toArray()` objects, `{x,y,z}` and
`{r,g,b}` shapes to flat numeric triples and spreads arrays; a value with
none of these surfaces is not array-like (`push.apply` would fail) and is
not exercised by the v3/c fields that call this. -/
def flattenElm : ShapeVal → List ℚ
  | .toArr xs => xs
  | .vecObj x y z => [x, y, z]
  | .colObj r g b => [r, g, b]
  | .arr xs => xs
  | _ => []

/-- Generic association-list write with JS object key order (existing key
in place, new key appended). -/
def alPut {α : Type} : List (String × α) → String → α → List (String × α)
  | [], k, v => [(k, v)]
  | kv :: rest, k, v => if kv.1 = k then (k, v) :: rest else kv :: alPut rest k v

/-- A three.js `Box3` used as the shape's running bounding box: `none` is
the empty box (min +∞ / max −∞); expansion takes componentwise min/max. -/
def expandBox (bb : Option ((ℚ × ℚ × ℚ) × (ℚ × ℚ × ℚ))) (p : ℚ × ℚ × ℚ) :
    Option ((ℚ × ℚ × ℚ) × (ℚ × ℚ × ℚ)) :=
  match bb with
  | none => some (p, p)
  | some (mn, mx) =>
    some ((min mn.1 p.1, min mn.2.1 p.2.1, min mn.2.2 p.2.2),
          (max mx.1 p.1, max mx.2.1 p.2.1, max mx.2.2 p.2.2))

/-- `tmpVec.fromArray(data.position)` on the raw input field: the first
three entries of a plain or `toArray`-style array (the expansion rules are
only fed arrays by the in-repo callers). -/
def tripleOf : ShapeVal → ℚ × ℚ × ℚ
  | .arr (a :: b :: c :: _) => (a, b, c)
  | .toArr (a :: b :: c :: _) => (a, b, c)
  | _ => (0, 0, 0)

/-- A `Shape` as the primitive engine uses it: its name, the per-key
columnar `_primitiveData` store, and the running bounding box.  Modelled
from the spec: the `Shape` constructor (outside src/) pre-creates an empty
column for every key of every registered primitive. -/
structure Shape where
  name : String
  primitiveData : List (String × List ShapeVal)
  boundingBox : Option ((ℚ × ℚ × ℚ) × (ℚ × ℚ × ℚ))
  deriving DecidableEq, Repr

/-- A geometry primitive descriptor: type tag, field schema (name ↦ kind
tag among v3/c/f/s) and the input fields its bounding-box expansion rule
uses (one center for sphere-like kinds, both endpoints for the cylinder
family). -/
structure PrimitiveKind where
  type : String
  fields : List (String × String)
  expandKeys : List String
  deriving DecidableEq, Repr

/-- `Primitive.getShapeKey(name)`: type tag followed by the field name with
its first letter upper-cased. -/
def PrimitiveKind.shapeKey (pk : PrimitiveKind) (name : String) : String :=
  pk.type ++ jsCapitalize name

/-- `Primitive.valueToShape(shape, name, value)`: v3/c fields append the
flattened numeric triple onto the column, every other field pushes the
value as-is. -/
def valueToShapeF (pk : PrimitiveKind) (sh : Shape) (name : String) (value : ShapeVal) : Shape :=
  let key := pk.shapeKey name
  let col := (sh.primitiveData.lookup key).getD []
  let col2 :=
    match pk.fields.lookup name with
    | some "v3" | some "c" => col ++ (flattenElm value).map ShapeVal.num
    | _ => col ++ [value]
  { sh with primitiveData := alPut sh.primitiveData key col2 }

/-- `Primitive.objectToShape(shape, data)`: every declared field of `data`
is appended, then the optional `name` value, then the bounding box is
expanded by the kind's anchor fields. -/
def objectToShapeF (pk : PrimitiveKind) (sh : Shape) (data : List (String × ShapeVal)) : Shape :=
  let sh1 := pk.fields.foldl
    (fun acc f => valueToShapeF pk acc f.1 ((data.lookup f.1).getD .undefined)) sh
  let sh2 := valueToShapeF pk sh1 "name" ((data.lookup "name").getD .undefined)
  { sh2 with
    boundingBox := pk.expandKeys.foldl
      (fun bb k => expandBox bb (tripleOf ((data.lookup k).getD .undefined)))
      sh2.boundingBox }

/-- A value produced by `Primitive.valueFromShape`: a reconstructed
`Vector3`, a reconstructed `Color`, or the raw stored column entry. -/
inductive ShapeOut where
  | vec (x y z : ℚ) : ShapeOut
  | col (r g b : ℚ) : ShapeOut
  | raw (v : ShapeVal) : ShapeOut
  deriving DecidableEq, Repr

/-- Numeric read of a column slot as `Vector3.fromArray`/`Color.fromArray`
perform it (the in-range slots of v3/c columns are always numbers). -/
def columnNumAt (col : List ShapeVal) (i : Nat) : ℚ :=
  match col.get? i with
  | some (.num q) => q
  | _ => 0

/-- `Primitive.valueFromShape(shape, pid, name)`: v3 fields rebuild a
`Vector3` from three consecutive numbers at offset `3*pid`, c fields a
`Color`, every other field returns `data[pid]` (undefined out of range). -/
def valueFromShapeF (pk : PrimitiveKind) (sh : Shape) (pid : Nat) (name : String) : ShapeOut :=
  let col := (sh.primitiveData.lookup (pk.shapeKey name)).getD []
  match pk.fields.lookup name with
  | some "v3" =>
    .vec (columnNumAt col (3 * pid)) (columnNumAt col (3 * pid + 1)) (columnNumAt col (3 * pid + 2))
  | some "c" =>
    .col (columnNumAt col (3 * pid)) (columnNumAt col (3 * pid + 1)) (columnNumAt col (3 * pid + 2))
  | _ => .raw (col.getD pid .undefined)

/-- The structured object `Primitive.objectFromShape` returns: the shape
reference, the (possibly synthesized) name and the per-field values. -/
structure ShapeObject where
  shape : Shape
  name : ShapeVal
  fieldVals : List (String × ShapeOut)
  deriving DecidableEq, Repr

/-- `Primitive.objectFromShape(shape, pid)`: reads the recorded name,
synthesizing `"<type>: <pid> (<shape name>)"` when none was recorded, then
reconstructs every declared field for instance `pid`. -/
def objectFromShapeF (pk : PrimitiveKind) (sh : Shape) (pid : Nat) : ShapeObject :=
  let nm0 := valueFromShapeF pk sh pid "name"
  let nm : ShapeVal :=
    match nm0 with
    | .raw .undefined => .str (pk.type ++ ": " ++ toString pid ++ " (" ++ sh.name ++ ")")
    | .raw v => v
    | .vec x y z => .vecObj x y z
    | .col r g b => .colObj r g b
  ⟨sh, nm, pk.fields.map (fun f => (f.1, valueFromShapeF pk sh pid f.1))⟩

/-- The sphere primitive: position/color/radius, bounding box expanded by
the single center. -/
def spherePrimitive : PrimitiveKind :=
  ⟨"sphere", [("position", "v3"), ("color", "c"), ("radius", "f")], ["position"]⟩

/-- The cylinder primitive: two endpoints, color, radius; bounding box
expanded by both endpoints. -/
def cylinderPrimitive : PrimitiveKind :=
  ⟨"cylinder",
    [("position1", "v3"), ("position2", "v3"), ("color", "c"), ("radius", "f")],
    ["position1", "position2"]⟩

abbrev V3 := ℚ × ℚ × ℚ

/-- Midpoint of two points, as `p1.add(p2).multiplyScalar(0.5)` computes. -/
def midpoint (a b : V3) : V3 :=
  ((a.1 + b.1) / 2, (a.2.1 + b.2.1) / 2, (a.2.2 + b.2.2) / 2)

/-- Components of a `valueFromShape` result used as a vector. -/
def asVec : ShapeOut → V3
  | .vec x y z => (x, y, z)
  | _ => (0, 0, 0)

/-- `CylinderPrimitive.positionFromShape(shape, pid)`: the midpoint of the
two stored endpoints of instance `pid`. -/
def cylinderPositionFromShape (sh : Shape) (pid : Nat) : V3 :=
  midpoint (asVec (valueFromShapeF cylinderPrimitive sh pid "position1"))
           (asVec (valueFromShapeF cylinderPrimitive sh pid "position2"))

/-- `SpherePrimitive.positionFromShape(shape, pid)`. -/
def spherePositionFromShape (sh : Shape) (pid : Nat) : V3 :=
  asVec (valueFromShapeF spherePrimitive sh pid "position")

/-! Pickers.  A lookup that evaluates to `undefined` in JavaScript (and the
`NaN` positions computed from one) is modelled as `none`. -/

/-- `Picker.getIndex(pid)`: `this.array ? this.array[pid] : pid`.  The slot
is either absent (undefined, falsy — the pid passes through) or an array,
which is truthy even when empty, so the element lookup is returned
(`undefined` when out of range). -/
def pickIndex (array : Option (List Nat)) (pid : Nat) : Option Nat :=
  match array with
  | none => some pid
  | some a => a.get? pid

/-- The structure slice bond and contact pickers read: the atom
positions. -/
structure ModelStructure where
  atomPositions : List V3
  deriving DecidableEq, Repr

/-- One record of the bond store: the two atom indices. -/
structure BondRecord where
  atomIndex1 : Nat
  atomIndex2 : Nat
  deriving DecidableEq, Repr

/-- `BondPicker._getPosition(pid)`: resolves the bond proxy for the mapped
index and returns the midpoint of its two atom positions; an out-of-range
lookup propagates as an undefined/NaN position. -/
def bondPickerGetPosition (array : Option (List Nat)) (st : ModelStructure)
    (bonds : List BondRecord) (pid : Nat) : Option V3 :=
  match pickIndex array pid with
  | none => none
  | some idx =>
    match bonds.get? idx with
    | none => none
    | some b =>
      match st.atomPositions.get? b.atomIndex1, st.atomPositions.get? b.atomIndex2 with
      | some p1, some p2 => some (midpoint p1 p2)
      | _, _ => none

/-- The contacts slice the contact picker reads: feature centers and the
two feature-index columns of the contact store. -/
structure ContactsModel where
  centers : List V3
  index1 : List Nat
  index2 : List Nat
  deriving DecidableEq, Repr

/-- `ContactPicker._getPosition(pid)`: the midpoint of the two feature
centers of the mapped contact. -/
def contactPickerGetPosition (array : Option (List Nat)) (c : ContactsModel)
    (pid : Nat) : Option V3 :=
  match pickIndex array pid with
  | none => none
  | some idx =>
    match c.index1.get? idx, c.index2.get? idx with
    | some k, some l =>
      match c.centers.get? k, c.centers.get? l with
      | some c1, some c2 => some (midpoint c1 c2)
      | _, _ => none
    | _, _ => none

/-- The mapping array every `ShapePicker` is constructed with: its
constructor calls `super([])`. -/
def shapePickerArray : Option (List Nat) := some []

/-- `CylinderPicker._getPosition(pid)` (via `ShapePicker`): feeds the
mapped index — `[][pid]`, i.e. `undefined` for every pid — into
`CylinderPrimitive.positionFromShape`. -/
def cylinderPickerGetPosition (sh : Shape) (pid : Nat) : Option V3 :=
  (pickIndex shapePickerArray pid).map (cylinderPositionFromShape sh)

/-! Concrete sample states used by the closed witnesses and
counterexamples. -/

/-- A small concrete representation: visible, opacity 1, an asynchronous
preparation step, no buffers, empty queue, zero counters, the
`uniform`/`element` color schemes registered, impostor extension
available. -/
def baseState : RepState where
  lazyBuild := false
  lazyBufferParams := []
  lazyWhat := []
  tasks := 0
  tasksDisposed := false
  queue := []
  pendingMake := []
  bufferList := []
  disposed := false
  hasPrepare := true
  renderRequests := 0
  attachCount := 0
  params := [("opacity", .val (.num 1))]
  vals := [("visible", .bool true)]
  schemes := ["uniform", "element"]
  extensionFragDepth := true

/-- A lazy, currently invisible representation (`this.visible` never set,
`parameters.lazy` true, `parameters.opacity` 1). -/
def lazyInvisibleState : RepState :=
  { baseState with
    params := [("opacity", .val (.num 1)), ("lazy", .val (.bool true))],
    vals := [] }

/-- A lazy representation with a deferred build and one currently invisible
buffer. -/
def deferredBuildState : RepState :=
  { baseState with
    lazyBuild := true,
    bufferList := [⟨false, []⟩],
    params := [("opacity", .val (.num 1)), ("lazy", .val (.bool true))] }

/-- Visibility-propagation sample: two buffers, no deferred work. -/
def twoBufferState : RepState :=
  { baseState with bufferList := [⟨false, []⟩, ⟨true, []⟩] }

/-- A representation owning one buffer, used by the dispose-race sample. -/
def oneBufferState : RepState :=
  { baseState with bufferList := [⟨true, []⟩] }

/-- Impostor-conditional rebuild sample with the fragment-depth extension
unavailable: `radialSegments` carries `rebuild: 'impostor'` metadata and
currently holds 10. -/
def impostorNoExtState : RepState :=
  { baseState with
    extensionFragDepth := false,
    params := [("opacity", .val (.num 1)),
               ("radialSegments", .meta ⟨false, false, .noBuf, none, .impostor⟩)],
    vals := [("visible", .bool true), ("radialSegments", .num 10)] }

/-- Witness state for the unconditional rebuild metadata: `flatShaded`
marked `rebuild: true`. -/
def rebuildTrueState : RepState :=
  { baseState with
    params := [("opacity", .val (.num 1)),
               ("flatShaded", .meta ⟨false, false, .noBuf, none, .rtrue⟩)],
    vals := [("visible", .bool true), ("flatShaded", .bool false)] }

/-- Current value of the skip-comparison sample: an object (reference id 1)
with content (1,2,3), exposing `equals` but neither `copy` nor `set`. -/
def skipSampleCur : PValue := .obj 1 [1, 2, 3] true false false

/-- A distinct object (reference id 2) with the same content: structurally
equal to `skipSampleCur` under `equals`, but not strictly equal. -/
def skipSampleNew : PValue := .obj 2 [1, 2, 3] true false false

/-- Skip-comparison sample state: parameter `p1` recognized with
`buffer: true` and `update: 'attr'` metadata, current value
`skipSampleCur`, one visible buffer. -/
def skipSampleState : RepState :=
  { baseState with
    params := [("opacity", .val (.num 1)),
               ("p1", .meta ⟨false, false, .btrue, some "attr", .noRebuild⟩)],
    vals := [("visible", .bool true), ("p1", skipSampleCur)],
    bufferList := [⟨true, []⟩] }

/-- A 2×3×4 Int32Array grid with one value per cell holding 0..23. -/
def gridSample : Grid :=
  { Grid.make 2 3 4 "Int32Array" 1 with data := (List.range 24).map (fun i => (i : ℤ)) }

/-- A fresh shape with the (empty) sphere columns pre-created. -/
def freshSphereShape : Shape :=
  ⟨"myShape",
    [("spherePosition", []), ("sphereColor", []), ("sphereRadius", []), ("sphereName", [])],
    none⟩

/-- The sphere description of the round-trip scenario. -/
def sphereSampleData : List (String × ShapeVal) :=
  [("position", .arr [1, 2, 3]), ("color", .arr [0, 1, 0]), ("radius", .num 2)]

/-- The sample shape after appending the sphere. -/
def sphereShapeAfter : Shape := objectToShapeF spherePrimitive freshSphereShape sphereSampleData

/-- A shape holding one cylinder with endpoints (0,0,0) and (2,0,0). -/
def cylShapeSample : Shape :=
  objectToShapeF cylinderPrimitive
    ⟨"cyl",
      [("cylinderPosition1", []), ("cylinderPosition2", []), ("cylinderColor", []),
       ("cylinderRadius", []), ("cylinderName", [])],
      none⟩
    [("position1", .arr [0, 0, 0]), ("position2", .arr [2, 0, 0]),
     ("color", .arr [1, 0, 0]), ("radius", .num 1)]

/-- A two-atom structure with atoms at (0,0,0) and (2,0,0). -/
def bondStructureSample : ModelStructure := ⟨[(0, 0, 0), (2, 0, 0)]⟩

/-- One bond joining the two sample atoms. -/
def bondListSample : List BondRecord := [⟨0, 1⟩]

/-- One contact joining two features centered at (0,0,0) and (2,0,0). -/
def contactsSample : ContactsModel := ⟨[(0, 0, 0), (2, 0, 0)], [0], [1]⟩

/-! Helper lemmas. -/

theorem lookup_alSet_self (l : List (String × PValue)) (k : String) (v : PValue) :
    (alSet l k v).lookup k = some v := by
  induction l with
  | nil => simp [alSet]
  | cons kv rest ih =>
    by_cases h : kv.1 = k
    · simp [alSet, h]
    · have hb : (k == kv.1) = false := by simpa using Ne.symm h
      simp [alSet, h, List.lookup, hb, ih]

theorem lookup_alSet_ne (l : List (String × PValue)) (k k2 : String) (v : PValue)
    (h : k2 ≠ k) : (alSet l k v).lookup k2 = l.lookup k2 := by
  have hb : (k2 == k) = false := by simpa using h
  induction l with
  | nil => simp [alSet, List.lookup, hb]
  | cons kv rest ih =>
    by_cases hk : kv.1 = k
    · subst hk
      simp [alSet, List.lookup, hb]
    · simp [alSet, hk, List.lookup, ih]

theorem visibleTruthy_setVal_bool (s : RepState) (v : Bool) :
    (s.setVal "visible" (.bool v)).visibleTruthy = v := by
  simp [RepState.setVal, RepState.visibleTruthy, RepState.valTruthy, RepState.valAt,
    lookup_alSet_self, PValue.truthy]

theorem renderRequests_le_family :
    ∀ n : Nat,
      (∀ uw s, s.renderRequests ≤ (buildF n uw s).renderRequests) ∧
      (∀ uw s, s.renderRequests ≤ (makeF n uw s).renderRequests) ∧
      (∀ uw s, s.renderRequests ≤ (makeCoreF n uw s).renderRequests) ∧
      (∀ s, s.renderRequests ≤ (attachF n s).renderRequests) ∧
      (∀ v nr s, s.renderRequests ≤ (setVisibilityF n v nr s).renderRequests) ∧
      (∀ bp w s, s.renderRequests ≤ (updateParametersF n bp w s).renderRequests) ∧
      (∀ w s, s.renderRequests ≤ (updateF n w s).renderRequests) := by
  intro n
  induction n with
  | zero =>
    refine ⟨?_, ?_, ?_, ?_, ?_, ?_, ?_⟩ <;> intros <;>
      simp [buildF, makeF, makeCoreF, attachF, setVisibilityF, updateParametersF, updateF]
  | succ n ih =>
    obtain ⟨ihb, ihm, ihc, iha, ihv, ihu, ihw⟩ := ih
    refine ⟨?_, ?_, ?_, ?_, ?_, ?_, ?_⟩
    · intro uw s
      simp only [buildF]
      split
      · exact Nat.le_refl _
      · split
        · exact ihm none { s with tasks := s.tasks + 1 }
        · split <;> exact Nat.le_refl _
    · intro uw s
      simp only [makeF]
      split
      · exact Nat.le_refl _
      · exact ihc uw s
    · intro uw s
      simp only [makeCoreF]
      split
      · show s.renderRequests ≤ (updateF n _ s).renderRequests + 1
        exact Nat.le_succ_of_le (ihw _ s)
      · split
        · show s.renderRequests ≤ (attachF n (createB (clear s))).renderRequests
          exact Nat.le_trans (Nat.le_succ s.renderRequests) (iha (createB (clear s)))
        · exact Nat.le_succ s.renderRequests
    · intro s
      simp only [attachF]
      show s.renderRequests ≤ (setVisibilityF n _ false { s with attachCount := s.attachCount + 1 }).renderRequests
      exact ihv _ false { s with attachCount := s.attachCount + 1 }
    · intro v nr s
      simp only [setVisibilityF]
      split
      · exact ihb none { RepState.setVal s "visible" (PValue.bool v) with lazyBuild := false }
      · have hS2 : s.renderRequests ≤
            (if (RepState.setVal s "visible" (PValue.bool v)).visibleTruthy &&
                (RepState.setVal s "visible" (PValue.bool v)).paramTruthy "opacity" &&
                (!(RepState.setVal s "visible" (PValue.bool v)).lazyBufferParams.isEmpty ||
                 !(RepState.setVal s "visible" (PValue.bool v)).lazyWhat.isEmpty) then
              updateParametersF n (RepState.setVal s "visible" (PValue.bool v)).lazyBufferParams
                (RepState.setVal s "visible" (PValue.bool v)).lazyWhat
                { RepState.setVal s "visible" (PValue.bool v) with
                  lazyBufferParams := [], lazyWhat := [] }
            else RepState.setVal s "visible" (PValue.bool v)).renderRequests := by
          split
          · exact ihu _ _
              { RepState.setVal s "visible" (PValue.bool v) with
                lazyBufferParams := [], lazyWhat := [] }
          · exact Nat.le_refl _
        cases nr with
        | true => exact hS2
        | false => exact Nat.le_succ_of_le hS2
    · intro bp w s
      simp only [updateParametersF]
      split
      · exact Nat.le_refl _
      · split
        · show s.renderRequests ≤
            (updateF n w { s with bufferList := s.bufferList.map (fun b => b.setParams bp) }).renderRequests + 1
          exact Nat.le_succ_of_le
            (ihw w { s with bufferList := s.bufferList.map (fun b => b.setParams bp) })
        · exact Nat.le_succ s.renderRequests
    · intro w s
      simp only [updateF]
      exact ihb (some w) s

theorem paramTruthy_setVal (s : RepState) (k : String) (v : PValue) (k2 : String) :
    (s.setVal k v).paramTruthy k2 = s.paramTruthy k2 := rfl

/-! Claim theorems. -/

/-- C1: for a representation with `parameters.lazy` true that is currently
invisible (opacity truthy), `build()` only records the deferred-build
request (`lazyProps.build = true`) and returns with nothing else changed —
no buffer mutation, no task-counter change, no render request; a
subsequent `setVisibility(true)` equals exactly one `build()` invocation
on the state whose deferral flag was reset beforehand, and for a
representation with an asynchronous preparation step the flag stays false
afterwards, so the deferred build runs exactly once. -/
theorem build_lazy_defers_and_visibility_triggers_once
    (n m : Nat) (uw : Option (List String)) (noRR : Bool) (s : RepState)
    (hlazy : s.paramTruthy "lazy" = true)
    (hdefer : s.visibleTruthy = false ∨ s.paramTruthy "opacity" = false) :
    buildF (n + 1) uw s = { s with lazyBuild := true } ∧
    (s.paramTruthy "opacity" = true →
      setVisibilityF (m + 1) true noRR { s with lazyBuild := true } =
        buildF m none
          (RepState.setVal { s with lazyBuild := false } "visible" (PValue.bool true))) ∧
    (s.paramTruthy "opacity" = true → s.hasPrepare = true →
      (setVisibilityF (m + 1) true noRR { s with lazyBuild := true }).lazyBuild = false) := by
  have h1 : buildF (n + 1) uw s = { s with lazyBuild := true } := by
    rcases hdefer with hvis | hop
    · simp [buildF, hlazy, hvis]
    · simp [buildF, hlazy, hop]
  have hvt : (RepState.setVal { s with lazyBuild := true } "visible" (PValue.bool true)).visibleTruthy
      = true := visibleTruthy_setVal_bool _ true
  have h2 : s.paramTruthy "opacity" = true →
      setVisibilityF (m + 1) true noRR { s with lazyBuild := true } =
      buildF m none (RepState.setVal { s with lazyBuild := false } "visible" (PValue.bool true)) := by
    intro hop
    simp only [setVisibilityF]
    rw [show ((RepState.setVal { s with lazyBuild := true } "visible" (PValue.bool true)).visibleTruthy &&
        (RepState.setVal { s with lazyBuild := true } "visible" (PValue.bool true)).paramTruthy "opacity" &&
        (RepState.setVal { s with lazyBuild := true } "visible" (PValue.bool true)).lazyBuild) = true by
      rw [hvt, paramTruthy_setVal]
      show (true && s.paramTruthy "opacity" && true) = true
      rw [hop]
      rfl]
    rfl
  refine ⟨h1, h2, fun hop hprep => ?_⟩
  rw [h2 hop]
  cases m with
  | zero => rfl
  | succ k =>
    simp only [buildF]
    rw [show ((RepState.setVal { s with lazyBuild := false } "visible" (PValue.bool true)).paramTruthy "lazy" &&
        (!(RepState.setVal { s with lazyBuild := false } "visible" (PValue.bool true)).visibleTruthy ||
         !(RepState.setVal { s with lazyBuild := false } "visible" (PValue.bool true)).paramTruthy "opacity")) = false by
      rw [visibleTruthy_setVal_bool, paramTruthy_setVal, paramTruthy_setVal]
      show (s.paramTruthy "lazy" && (!true || !s.paramTruthy "opacity")) = false
      rw [hop]
      simp]
    rw [if_neg (by simp)]
    rw [show (!(RepState.setVal { s with lazyBuild := false } "visible" (PValue.bool true)).hasPrepare) = false by
      show (!s.hasPrepare) = false
      rw [hprep]
      rfl]
    rw [if_neg (by simp)]
    split <;> rfl

/-- Closed witness for C1 at the concrete lazy invisible sample state. -/
theorem build_lazy_defers_witness :
    lazyInvisibleState.paramTruthy "lazy" = true ∧
    (lazyInvisibleState.visibleTruthy = false ∨
      lazyInvisibleState.paramTruthy "opacity" = false) ∧
    (buildF 1 none lazyInvisibleState = { lazyInvisibleState with lazyBuild := true } ∧
     (lazyInvisibleState.paramTruthy "opacity" = true →
       setVisibilityF 1 true false { lazyInvisibleState with lazyBuild := true } =
         buildF 0 none
           (RepState.setVal { lazyInvisibleState with lazyBuild := false } "visible"
             (PValue.bool true))) ∧
     (lazyInvisibleState.paramTruthy "opacity" = true → lazyInvisibleState.hasPrepare = true →
       (setVisibilityF 1 true false { lazyInvisibleState with lazyBuild := true }).lazyBuild
         = false)) :=
  ⟨by decide, by decide,
    build_lazy_defers_and_visibility_triggers_once 0 0 none false lazyInvisibleState
      (by decide) (by decide)⟩

/-- One `build` call on a non-deferring state with an asynchronous
preparation step and an empty queue: the counter is incremented and the
job queued. -/
theorem buildF_first_step (n : Nat) (uw : Option (List String)) (st : RepState)
    (hlazy : st.paramTruthy "lazy" = false)
    (hprep : st.hasPrepare = true)
    (hq : st.queue = [])
    (ht : st.tasks = 0) :
    buildF (n + 1) uw st = { st with queue := [uw], tasks := 1 } := by
  simp only [buildF]
  rw [show (st.paramTruthy "lazy" && (!st.visibleTruthy || !st.paramTruthy "opacity")) = false by
    rw [hlazy]; rfl]
  rw [if_neg (by simp)]
  rw [show (!st.hasPrepare) = false by rw [hprep]; rfl]
  rw [if_neg (by simp)]
  rw [hq]
  simp [ht]

/-- One `build` call on a non-deferring state with an asynchronous
preparation step and exactly one queued job: the pending job is killed,
the counter corrected to 1, and the new job pushed. -/
theorem buildF_coalesce_step (n : Nat) (uw uw0 : Option (List String)) (st : RepState)
    (hlazy : st.paramTruthy "lazy" = false)
    (hprep : st.hasPrepare = true)
    (hq : st.queue = [uw0])
    (ht : st.tasks = 1) :
    buildF (n + 1) uw st = { st with queue := [uw], tasks := 1 } := by
  simp only [buildF]
  rw [show (st.paramTruthy "lazy" && (!st.visibleTruthy || !st.paramTruthy "opacity")) = false by
    rw [hlazy]; rfl]
  rw [if_neg (by simp)]
  rw [show (!st.hasPrepare) = false by rw [hprep]; rfl]
  rw [if_neg (by simp)]
  rw [hq]
  simp [ht]

theorem foldl_coalesce_aux (n : Nat) (jobs : List (Option (List String))) :
    ∀ (st : RepState) (uw0 : Option (List String)),
      st.paramTruthy "lazy" = false → st.hasPrepare = true →
      st.queue = [uw0] → st.tasks = 1 →
      ∃ uwr, (jobs.foldl (fun a uw => buildF (n + 1) uw a) st).queue = [uwr] ∧
        (jobs.foldl (fun a uw => buildF (n + 1) uw a) st).tasks = 1 := by
  induction jobs with
  | nil =>
    intro st uw0 _ _ hq ht
    exact ⟨uw0, by simpa using hq, by simpa using ht⟩
  | cons uw rest ih =>
    intro st uw0 hlazy hprep hq ht
    rw [List.foldl_cons, buildF_coalesce_step n uw uw0 st hlazy hprep hq ht]
    exact ih { st with queue := [uw], tasks := 1 } uw hlazy hprep rfl rfl

/-- C2: N ≥ 1 consecutive `build(updateWhat)` calls on a representation
with an asynchronous preparation step, issued before any queued job starts,
leave exactly one job in the coalescing queue and a task counter of exactly
1, not N: each later call kills the previously queued job and corrects the
counter before pushing the new job. -/
theorem consecutive_builds_coalesce (n : Nat) (first : Option (List String))
    (rest : List (Option (List String))) (s : RepState)
    (hlazy : s.paramTruthy "lazy" = false)
    (hprep : s.hasPrepare = true)
    (hq : s.queue = [])
    (ht : s.tasks = 0) :
    ((first :: rest).foldl (fun a uw => buildF (n + 1) uw a) s).queue.length = 1 ∧
    ((first :: rest).foldl (fun a uw => buildF (n + 1) uw a) s).tasks = 1 := by
  rw [List.foldl_cons, buildF_first_step n first s hlazy hprep hq ht]
  obtain ⟨uwr, hqr, htr⟩ :=
    foldl_coalesce_aux n rest { s with queue := [first], tasks := 1 } first hlazy hprep rfl rfl
  exact ⟨by rw [hqr]; rfl, htr⟩

/-- Closed witness for C2: three consecutive builds at the concrete base
state. -/
theorem consecutive_builds_coalesce_witness :
    baseState.paramTruthy "lazy" = false ∧
    baseState.hasPrepare = true ∧
    baseState.queue = [] ∧
    baseState.tasks = 0 ∧
    (([some ["color"], some ["position"], Option.none].foldl
        (fun a uw => buildF 1 uw a) baseState).queue.length = 1 ∧
     ([some ["color"], some ["position"], Option.none].foldl
        (fun a uw => buildF 1 uw a) baseState).tasks = 1) :=
  ⟨by decide, by decide, by decide, by decide,
    consecutive_builds_coalesce 0 (some ["color"]) [some ["position"], Option.none] baseState
      (by decide) (by decide) (by decide) (by decide)⟩

/-- C3: a `dispose()` issued while a build's preparation step is pending
keeps the build's continuation from ever performing the attach step: when
the preparation resolves, construction (clear and create) still runs, but
the disposed guard skips the attach, so the attach counter is unchanged,
the buffer list stays empty and the terminal flag stays set. -/
theorem dispose_during_prepare_skips_attach (n m : Nat) (s : RepState)
    (hprep : s.hasPrepare = true)
    (hpm : s.pendingMake = []) :
    (resolvePrepareF m (dispose (makeF (n + 1) none s))).attachCount = s.attachCount ∧
    (resolvePrepareF m (dispose (makeF (n + 1) none s))).bufferList = [] ∧
    (resolvePrepareF m (dispose (makeF (n + 1) none s))).disposed = true := by
  have hm : makeF (n + 1) none s = { s with pendingMake := [Option.none] } := by
    simp [makeF, hprep, hpm]
  rw [hm]
  cases m with
  | zero => exact ⟨rfl, rfl, rfl⟩
  | succ k => exact ⟨rfl, rfl, rfl⟩

/-- Closed witness for C3 at the concrete one-buffer state. -/
theorem dispose_during_prepare_witness :
    oneBufferState.hasPrepare = true ∧
    oneBufferState.pendingMake = [] ∧
    ((resolvePrepareF 1 (dispose (makeF 1 none oneBufferState))).attachCount
        = oneBufferState.attachCount ∧
     (resolvePrepareF 1 (dispose (makeF 1 none oneBufferState))).bufferList = [] ∧
     (resolvePrepareF 1 (dispose (makeF 1 none oneBufferState))).disposed = true) :=
  ⟨by decide, by decide,
    dispose_during_prepare_skips_attach 0 1 oneBufferState (by decide) (by decide)⟩

/-- One `build` call on a non-deferring prepared state with an empty
queue, tasks left symbolic. -/
theorem buildF_queue_push (n : Nat) (uw : Option (List String)) (st : RepState)
    (hlazy : st.paramTruthy "lazy" = false)
    (hprep : st.hasPrepare = true)
    (hq : st.queue = []) :
    buildF (n + 1) uw st = { st with queue := [uw], tasks := st.tasks + 1 } := by
  simp only [buildF]
  rw [show (st.paramTruthy "lazy" && (!st.visibleTruthy || !st.paramTruthy "opacity")) = false by
    rw [hlazy]; rfl]
  rw [if_neg (by simp)]
  rw [show (!st.hasPrepare) = false by rw [hprep]; rfl]
  rw [if_neg (by simp)]
  rw [hq]
  simp

/-- `updateParameters({}, {})` either defers nothing into `lazyProps` or
applies nothing and requests one render. -/
theorem updateParametersF_nil (n : Nat) (st : RepState) :
    updateParametersF (n + 1) [] [] st = st ∨
    updateParametersF (n + 1) [] [] st = { st with renderRequests := st.renderRequests + 1 } := by
  simp only [updateParametersF]
  split
  · left
    rfl
  · right
    show requestRender { st with bufferList := st.bufferList.map (fun b => b.setParams []) } = _
    have hmap : st.bufferList.map (fun b => b.setParams []) = st.bufferList := by
      simp [GpuBuffer.setParams, mergeParams]
    rw [hmap]
    rfl

/-- The loop outcome of `setParameters({pname: v})` under the hypotheses of
the single-parameter scenarios: no flush, no color normalization, one
recognized changed parameter. -/
theorem setParametersF_single (n : Nat) (pname : String) (v : PValue) (mm : PMeta)
    (s : RepState)
    (hpn : pname ≠ "color")
    (hmeta : s.params.lookup pname = some (.meta mm))
    (hint : mm.int = false) (hfloat : mm.float = false)
    (hdef : v ≠ .undefined)
    (hneq : jsEq v ((s.vals.lookup pname).getD .undefined) = false)
    (hop : s.paramTruthy "opacity" = true) :
    setParametersF n [(pname, v)] [] false s =
      (let cur := (s.vals.lookup pname).getD .undefined
       let vals1 := alSet s.vals pname (commitResult cur v)
       let bp1 := match mm.buffer with
         | .noBuf => ([] : List (String × PValue))
         | .btrue => [(pname, v)]
         | .bname a => [(a, v)]
       let what1 := match mm.update with
         | none => ([] : List String)
         | some u => [u]
       let rb1 := match mm.rebuild with
         | .noRebuild => false
         | .rtrue => true
         | .impostor =>
           !(s.extensionFragDepth && !(((vals1.lookup "disableImpostor").getD .undefined).truthy))
       if rb1 then buildF n none { s with vals := vals1 }
       else updateParametersF n bp1 what1 { s with vals := vals1 }) := by
  have hcolor : (List.lookup "color" [(pname, v)]) = none := by
    simp [List.lookup, show ("color" == pname) = false by simpa using Ne.symm hpn]
  have hflush : (!s.paramTruthy "opacity" && definedAt [(pname, v)] "opacity") = false := by
    rw [hop]; rfl
  simp only [setParametersF, alGet, hcolor, Option.getD, setColorOnParams, hflush,
    Bool.false_eq_true, if_false, List.foldl_cons, List.foldl_nil]
  simp only [processParam, if_neg hdef, hmeta, PEntry.intB, hint, PEntry.floatB, hfloat,
    Bool.false_eq_true, if_false, hneq, Bool.false_and, PEntry.bufferTag, PEntry.updateKey,
    PEntry.rebuildTag]
  cases hb : mm.buffer <;> cases hu : mm.update <;> cases hr : mm.rebuild <;>
    simp [insertWhat, alSet, Option.getD]

/-- C4 counterexample: at the concrete state whose `ExtensionFragDepth`
capability is absent (impostor rendering unavailable), changing the
`rebuild: 'impostor'` parameter `radialSegments` still escalates to a full
rebuild (the coalescing queue receives the full-build job), so the claim
that the escalation is suppressed exactly when impostor rendering is
unavailable/disabled is false at this input: here it is unavailable and
not suppressed. -/
theorem setParameters_impostor_counterexample :
    impostorNoExtState.extensionFragDepth = false ∧
    (setParametersF 1 [("radialSegments", PValue.num 20)] [] false impostorNoExtState).queue
      = [Option.none] := by
  exact ⟨rfl, by decide⟩

/-- C4 (amended): a changed parameter whose metadata is `rebuild: true`
always escalates to a full `build()` (the rebuild job is queued and no
incremental buffer update is applied), and a changed `rebuild: 'impostor'`
parameter escalates exactly unless `ExtensionFragDepth` holds and
`this.disableImpostor` is falsy — i.e. the escalation is suppressed
exactly when impostor rendering is available and not disabled. -/
theorem setParameters_rebuild_routing
    (n : Nat) (pname : String) (v : PValue) (mm : PMeta) (s : RepState)
    (hpn : pname ≠ "color")
    (hpd : pname ≠ "disableImpostor")
    (hmeta : s.params.lookup pname = some (.meta mm))
    (hint : mm.int = false) (hfloat : mm.float = false)
    (hbuf : mm.buffer = .noBuf) (hupd : mm.update = none)
    (hdef : v ≠ .undefined)
    (hneq : jsEq v ((s.vals.lookup pname).getD .undefined) = false)
    (hop : s.paramTruthy "opacity" = true)
    (hlazy : s.paramTruthy "lazy" = false)
    (hprep : s.hasPrepare = true)
    (hq : s.queue = []) :
    (mm.rebuild = .rtrue →
      (setParametersF (n + 1) [(pname, v)] [] false s).queue = [Option.none] ∧
      (setParametersF (n + 1) [(pname, v)] [] false s).bufferList = s.bufferList) ∧
    (mm.rebuild = .impostor →
      ((s.extensionFragDepth && !(s.valTruthy "disableImpostor")) = true →
        (setParametersF (n + 1) [(pname, v)] [] false s).queue = []) ∧
      ((s.extensionFragDepth && !(s.valTruthy "disableImpostor")) = false →
        (setParametersF (n + 1) [(pname, v)] [] false s).queue = [Option.none])) := by
  rw [setParametersF_single (n + 1) pname v mm s hpn hmeta hint hfloat hdef hneq hop]
  have hdi : ((alSet s.vals pname
        (commitResult ((s.vals.lookup pname).getD .undefined) v)).lookup "disableImpostor")
      = s.vals.lookup "disableImpostor" := lookup_alSet_ne _ _ _ _ (Ne.symm hpd)
  have hval : s.valTruthy "disableImpostor"
      = ((s.vals.lookup "disableImpostor").getD .undefined).truthy := rfl
  constructor
  · intro hrb
    simp only [hbuf, hupd, hrb, if_true]
    rw [buildF_queue_push n none { s with vals := alSet s.vals pname (commitResult ((s.vals.lookup pname).getD .undefined) v) } hlazy hprep hq]
    exact ⟨rfl, rfl⟩
  · intro hrb
    simp only [hbuf, hupd, hrb, hdi]
    constructor
    · intro hsup
      have hcond : (!(s.extensionFragDepth &&
          !((s.vals.lookup "disableImpostor").getD .undefined).truthy)) = false := by
        rw [← hval, hsup]
        rfl
      simp only [hcond, Bool.false_eq_true, if_false]
      have hnil := updateParametersF_nil n { s with vals := alSet s.vals pname (commitResult ((s.vals.lookup pname).getD .undefined) v) }
      rcases hnil with h | h <;> rw [h] <;> exact hq
    · intro hsup
      have hcond : (!(s.extensionFragDepth &&
          !((s.vals.lookup "disableImpostor").getD .undefined).truthy)) = true := by
        rw [← hval, hsup]
        rfl
      simp only [hcond, if_true]
      rw [buildF_queue_push n none { s with vals := alSet s.vals pname (commitResult ((s.vals.lookup pname).getD .undefined) v) } hlazy hprep hq]

/-- Closed witness for C4 (amended) at the impostor sample state. -/
theorem setParameters_rebuild_routing_witness :
    ("radialSegments" ≠ "color") ∧
    impostorNoExtState.params.lookup "radialSegments"
      = some (.meta ⟨false, false, .noBuf, none, .impostor⟩) ∧
    jsEq (PValue.num 20) ((impostorNoExtState.vals.lookup "radialSegments").getD .undefined) = false ∧
    impostorNoExtState.paramTruthy "opacity" = true ∧
    impostorNoExtState.hasPrepare = true ∧
    (((PMeta.mk false false .noBuf none .impostor).rebuild = .rtrue →
       (setParametersF 1 [("radialSegments", PValue.num 20)] [] false impostorNoExtState).queue
         = [Option.none] ∧
       (setParametersF 1 [("radialSegments", PValue.num 20)] [] false impostorNoExtState).bufferList
         = impostorNoExtState.bufferList) ∧
     ((PMeta.mk false false .noBuf none .impostor).rebuild = .impostor →
       ((impostorNoExtState.extensionFragDepth &&
           !(impostorNoExtState.valTruthy "disableImpostor")) = true →
         (setParametersF 1 [("radialSegments", PValue.num 20)] [] false impostorNoExtState).queue
           = []) ∧
       ((impostorNoExtState.extensionFragDepth &&
           !(impostorNoExtState.valTruthy "disableImpostor")) = false →
         (setParametersF 1 [("radialSegments", PValue.num 20)] [] false impostorNoExtState).queue
           = [Option.none]))) :=
  ⟨by decide, by decide, by decide, by decide, by decide,
    setParameters_rebuild_routing 0 "radialSegments" (PValue.num 20)
      ⟨false, false, .noBuf, none, .impostor⟩ impostorNoExtState
      (by decide) (by decide) (by decide) (by decide) (by decide) (by decide) (by decide)
      (by decide) (by decide) (by decide) (by decide) (by decide) (by decide)⟩

/-- C5: `setColor(value, p)` stores a registered scheme name (matched
lowercased) as `colorScheme` verbatim without altering `colorValue`;
treats any other defined value — an unregistered string or a
number/color object — as a literal color, forcing
`colorScheme = 'uniform'` and storing the resolved numeric hex value as
`colorValue`; and leaves the target untouched when the value is
undefined. -/
theorem setColor_normalizes
    (schemes : List String) (sv su : String) (v : PValue)
    (p q r t : List (String × PValue))
    (hreg : schemes.contains (jsToLower sv) = true)
    (hunreg : schemes.contains (jsToLower su) = false)
    (hstr : v.isStr = false)
    (hdef : v ≠ .undefined) :
    (setColorOnParams schemes (.str sv) p = alSet p "colorScheme" (.str sv) ∧
     (setColorOnParams schemes (.str sv) p).lookup "colorValue" = p.lookup "colorValue") ∧
    setColorOnParams schemes (.str su) q =
      alSet (alSet q "colorScheme" (.str "uniform")) "colorValue"
        (.num (colorGetHex (.str su))) ∧
    setColorOnParams schemes v r =
      alSet (alSet r "colorScheme" (.str "uniform")) "colorValue" (.num (colorGetHex v)) ∧
    setColorOnParams schemes .undefined t = t := by
  have h1 : setColorOnParams schemes (.str sv) p = alSet p "colorScheme" (.str sv) := by
    simp only [setColorOnParams]
    rw [hreg]
    rfl
  refine ⟨⟨h1, ?_⟩, ?_, ?_, rfl⟩
  · rw [h1, lookup_alSet_ne _ _ _ _ (by decide)]
  · simp only [setColorOnParams]
    rw [hunreg]
    rfl
  · cases v with
    | undefined => exact absurd rfl hdef
    | str s2 => simp [PValue.isStr] at hstr
    | bool b => rfl
    | num q2 => rfl
    | obj r2 c he hc hs => rfl

/-- Closed witness for C5: `'uniform'` is a registered scheme and is stored
without touching the existing `colorValue`; `'red'` is not registered and
resolves to the literal red (0xff0000); a numeric color is stored as the
uniform literal; `undefined` leaves the target untouched. -/
theorem setColor_normalizes_witness :
    (["uniform", "element"].contains (jsToLower "uniform") = true) ∧
    (["uniform", "element"].contains (jsToLower "red") = false) ∧
    ((setColorOnParams ["uniform", "element"] (.str "uniform") [("colorValue", .num 255)]
        = alSet [("colorValue", .num 255)] "colorScheme" (.str "uniform") ∧
      (setColorOnParams ["uniform", "element"] (.str "uniform")
          [("colorValue", .num 255)]).lookup "colorValue"
        = ([("colorValue", PValue.num 255)] : List (String × PValue)).lookup "colorValue") ∧
     setColorOnParams ["uniform", "element"] (.str "red") [] =
       alSet (alSet [] "colorScheme" (.str "uniform")) "colorValue"
         (.num (colorGetHex (.str "red"))) ∧
     setColorOnParams ["uniform", "element"] (.num 3093151) [] =
       alSet (alSet [] "colorScheme" (.str "uniform")) "colorValue"
         (.num (colorGetHex (.num 3093151))) ∧
     setColorOnParams ["uniform", "element"] .undefined [("colorScheme", .str "element")]
       = [("colorScheme", .str "element")]) :=
  ⟨by decide, by decide,
    setColor_normalizes ["uniform", "element"] "uniform" "red" (.num 3093151)
      [("colorValue", .num 255)] [] [] [("colorScheme", .str "element")]
      (by decide) (by decide) (by decide) (by decide)⟩

/-- C6 counterexample: at the concrete deferred-build state,
`setVisibility(true)` (with no render suppression requested) triggers the
deferred lazy build and returns immediately: the single owned buffer keeps
visibility `false` and no render is requested before returning, refuting
the claim that every `setVisibility` call propagates the value to every
buffer and requests a render, including the deferred-lazy-build path. -/
theorem setVisibility_deferred_build_counterexample :
    (setVisibilityF 4 true false deferredBuildState).bufferList.map GpuBuffer.visible
      = [false] ∧
    (setVisibilityF 4 true false deferredBuildState).renderRequests = 0 := by
  decide

/-- C6 (amended): except on the deferred-lazy-build path (becoming visible
with truthy opacity while `lazyProps.build` is set, where `setVisibility`
returns right after triggering the build), `setVisibility(value,
noRenderRequest)` propagates the value to every owned buffer before
returning and, unless suppressed, requests a render. -/
theorem setVisibility_propagates_unless_deferred_build
    (n : Nat) (value noRR : Bool) (s : RepState)
    (h : (value && s.paramTruthy "opacity" && s.lazyBuild) = false) :
    (∀ b ∈ (setVisibilityF (n + 1) value noRR s).bufferList, b.visible = value) ∧
    (noRR = false →
      s.renderRequests < (setVisibilityF (n + 1) value noRR s).renderRequests) := by
  have hmap : ∀ (l : List GpuBuffer) (b : GpuBuffer),
      b ∈ l.map (fun x => x.setVis value) → b.visible = value := by
    intro l b hb
    rcases List.mem_map.mp hb with ⟨x, _, rfl⟩
    rfl
  have hc : ((s.setVal "visible" (PValue.bool value)).visibleTruthy &&
      (s.setVal "visible" (PValue.bool value)).paramTruthy "opacity" &&
      (s.setVal "visible" (PValue.bool value)).lazyBuild) = false := by
    rw [visibleTruthy_setVal_bool, paramTruthy_setVal]
    exact h
  have hle : s.renderRequests ≤
      (if (s.setVal "visible" (PValue.bool value)).visibleTruthy &&
          (s.setVal "visible" (PValue.bool value)).paramTruthy "opacity" &&
          (!(s.setVal "visible" (PValue.bool value)).lazyBufferParams.isEmpty ||
           !(s.setVal "visible" (PValue.bool value)).lazyWhat.isEmpty) then
        updateParametersF n (s.setVal "visible" (PValue.bool value)).lazyBufferParams
          (s.setVal "visible" (PValue.bool value)).lazyWhat
          { s.setVal "visible" (PValue.bool value) with
            lazyBufferParams := [], lazyWhat := [] }
      else s.setVal "visible" (PValue.bool value)).renderRequests := by
    split
    · exact (renderRequests_le_family n).2.2.2.2.2.1 _ _
        { s.setVal "visible" (PValue.bool value) with lazyBufferParams := [], lazyWhat := [] }
    · exact Nat.le_refl _
  simp only [setVisibilityF, hc, Bool.false_eq_true, if_false]
  cases noRR with
  | true =>
    refine ⟨fun b hb => hmap _ b hb, fun hfalse => by cases hfalse⟩
  | false =>
    exact ⟨fun b hb => hmap _ b hb, fun _ => Nat.lt_succ_of_le hle⟩

/-- Closed witness for C6 (amended) at the concrete two-buffer state. -/
theorem setVisibility_propagates_witness :
    ((true && twoBufferState.paramTruthy "opacity" && twoBufferState.lazyBuild) = false) ∧
    ((∀ b ∈ (setVisibilityF 1 true false twoBufferState).bufferList, b.visible = true) ∧
     (false = false →
       twoBufferState.renderRequests
         < (setVisibilityF 1 true false twoBufferState).renderRequests)) :=
  ⟨by decide,
    setVisibility_propagates_unless_deferred_build 0 true false twoBufferState (by decide)⟩

/-- C7 counterexample: at the concrete sample state, the new value is
structurally equal to the current one under its `equals` comparison but is
a distinct object, and the call is not a no-op: the slot is re-committed to
the new instance, the `buffer: true` parameter is staged and pushed to the
owned buffer, and the `update: 'attr'` mark escalates an update job into
the queue. -/
theorem setParameters_structural_equal_counterexample :
    equalsB skipSampleNew skipSampleCur = true ∧
    jsEq skipSampleNew skipSampleCur = false ∧
    (setParametersF 3 [("p1", skipSampleNew)] [] false skipSampleState).vals.lookup "p1"
      = some skipSampleNew ∧
    (setParametersF 3 [("p1", skipSampleNew)] [] false skipSampleState).bufferList.map
        GpuBuffer.params
      = [[("p1", skipSampleNew)]] ∧
    (setParametersF 3 [("p1", skipSampleNew)] [] false skipSampleState).queue
      = [some ["attr"]] := by
  decide

/-- C7 (amended): a recognized parameter value is skipped as unchanged
exactly when it is strictly equal (`===`) to the current value and, when
it exposes an `equals` method, that comparison also holds; such a call
leaves the state untouched apart from at most the final render request of
the empty update pass (no value re-commit, no staged buffer-param, no
marked attribute update, no rebuild).  A structurally equal but distinct
object value is not skipped. -/
theorem setParameters_strict_equal_skip
    (n : Nat) (pname : String) (v : PValue) (e : PEntry) (s : RepState)
    (hpn : pname ≠ "color")
    (hmeta : s.params.lookup pname = some e)
    (hint : e.intB = false) (hfloat : e.floatB = false)
    (hdef : v ≠ .undefined)
    (hskip : (jsEq v ((s.vals.lookup pname).getD .undefined) &&
      (!v.hasEqualsB || equalsB v ((s.vals.lookup pname).getD .undefined))) = true)
    (hop : s.paramTruthy "opacity" = true) :
    setParametersF (n + 1) [(pname, v)] [] false s = s ∨
    setParametersF (n + 1) [(pname, v)] [] false s
      = { s with renderRequests := s.renderRequests + 1 } := by
  have hcolor : (List.lookup "color" [(pname, v)]) = none := by
    simp [List.lookup, show ("color" == pname) = false by simpa using Ne.symm hpn]
  have hflush : (!s.paramTruthy "opacity" && definedAt [(pname, v)] "opacity") = false := by
    rw [hop]; rfl
  simp only [setParametersF, alGet, hcolor, Option.getD, setColorOnParams, hflush,
    Bool.false_eq_true, if_false, List.foldl_cons, List.foldl_nil]
  simp only [processParam, if_neg hdef, hmeta, hint, hfloat, Bool.false_eq_true, if_false,
    hskip, if_true]
  exact updateParametersF_nil n s

/-- Closed witness for C7 (amended): passing the reference-identical
current value is a no-op up to the final render request. -/
theorem setParameters_strict_equal_skip_witness :
    skipSampleState.params.lookup "p1"
      = some (.meta ⟨false, false, .btrue, some "attr", .noRebuild⟩) ∧
    (jsEq skipSampleCur ((skipSampleState.vals.lookup "p1").getD .undefined) &&
      (!skipSampleCur.hasEqualsB ||
        equalsB skipSampleCur ((skipSampleState.vals.lookup "p1").getD .undefined))) = true ∧
    (setParametersF 1 [("p1", skipSampleCur)] [] false skipSampleState = skipSampleState ∨
     setParametersF 1 [("p1", skipSampleCur)] [] false skipSampleState
       = { skipSampleState with renderRequests := skipSampleState.renderRequests + 1 }) :=
  ⟨by decide, by decide,
    setParameters_strict_equal_skip 0 "p1" skipSampleCur
      (.meta ⟨false, false, .btrue, some "attr", .noRebuild⟩) skipSampleState
      (by decide) (by decide) (by decide) (by decide) (by decide) (by decide) (by decide)⟩

/-- C8: `Grid.clone()` evaluates to `undefined` for every grid — the
`return new Grid(...).copy(this)` returns whatever `copy` returns, and
`copy` has no return statement.  The grid `clone` constructs internally
does duplicate the original cell for cell (same dimensions, element
constructor, element size and data): that is the value `clone` fails to
return. -/
theorem grid_clone_returns_undefined :
    (∀ g : Grid, Grid.cloneJS g = none) ∧ Grid.cloneTarget gridSample = gridSample :=
  ⟨fun _ => rfl, by decide⟩

/-- C9: appending a sphere with position (1,2,3), color (0,1,0) and radius
2 to a fresh shape and reading instance 0 back through `objectFromShape`
recovers the same position, color and radius by value (as freshly
constructed `Vector3`/`Color` objects). -/
theorem sphere_primitive_round_trip :
    ((objectFromShapeF spherePrimitive sphereShapeAfter 0).fieldVals.lookup "position"
       = some (.vec 1 2 3)) ∧
    ((objectFromShapeF spherePrimitive sphereShapeAfter 0).fieldVals.lookup "color"
       = some (.col 0 1 0)) ∧
    ((objectFromShapeF spherePrimitive sphereShapeAfter 0).fieldVals.lookup "radius"
       = some (.raw (.num 2))) := by
  decide

/-- Support for C10: a bond picker with well-formed lookups returns the
midpoint of the two atom positions. -/
theorem bondPicker_midpoint (array : Option (List Nat)) (st : ModelStructure)
    (bonds : List BondRecord) (pid idx : Nat) (b : BondRecord) (p1 p2 : V3)
    (h1 : pickIndex array pid = some idx)
    (h2 : bonds.get? idx = some b)
    (h3 : st.atomPositions.get? b.atomIndex1 = some p1)
    (h4 : st.atomPositions.get? b.atomIndex2 = some p2) :
    bondPickerGetPosition array st bonds pid = some (midpoint p1 p2) := by
  simp only [List.get?_eq_getElem?] at h2 h3 h4
  simp [bondPickerGetPosition, h1, h2, h3, h4]

/-- Support for C10: a contact picker with well-formed lookups returns the
midpoint of the two feature centers. -/
theorem contactPicker_midpoint (array : Option (List Nat)) (c : ContactsModel)
    (pid idx k l : Nat) (c1 c2 : V3)
    (h1 : pickIndex array pid = some idx)
    (h2 : c.index1.get? idx = some k)
    (h3 : c.index2.get? idx = some l)
    (h4 : c.centers.get? k = some c1)
    (h5 : c.centers.get? l = some c2) :
    contactPickerGetPosition array c pid = some (midpoint c1 c2) := by
  simp only [List.get?_eq_getElem?] at h2 h3 h4 h5
  simp [contactPickerGetPosition, h1, h2, h3, h4, h5]

/-- C10: bond and contact pickers return the (0,0,0)/(2,0,0) midpoint
(1,0,0) as the claim states, but a cylinder picker does not: its
`ShapePicker` constructor passes `[]` as the pick-id mapping, `[]` is
truthy, so `getIndex(pid)` evaluates `[][pid] = undefined` for every pid
and `_getPosition` yields an undefined/NaN position — even though the
midpoint the shape data defines for instance 0 is exactly (1,0,0). -/
theorem cylinder_picker_position_undefined (pid : Nat) :
    cylinderPickerGetPosition cylShapeSample pid = none ∧
    cylinderPositionFromShape cylShapeSample 0 = (1, 0, 0) ∧
    bondPickerGetPosition none bondStructureSample bondListSample 0 = some (1, 0, 0) ∧
    contactPickerGetPosition none contactsSample 0 = some (1, 0, 0) := by
  refine ⟨rfl, ?_, ?_, ?_⟩
  · have hp1 : valueFromShapeF cylinderPrimitive cylShapeSample 0 "position1"
        = .vec 0 0 0 := by decide
    have hp2 : valueFromShapeF cylinderPrimitive cylShapeSample 0 "position2"
        = .vec 2 0 0 := by decide
    simp only [cylinderPositionFromShape, hp1, hp2, asVec]
    norm_num [midpoint]
  · norm_num [bondPickerGetPosition, bondStructureSample, bondListSample, pickIndex, midpoint]
  · norm_num [contactPickerGetPosition, contactsSample, pickIndex, midpoint]

end NGL
